import Mathlib

/-!
Verification of the sidecar health-check server (`src/health_server.py`).

The program is a FastAPI app with a single route `GET /ping`.  On each probe
it issues `client.head(f"{OLLAMA_URL}/", timeout=2.0)` against the co-located
upstream service, classifies the outcome (status 200 → "reachable", any other
status → "degraded", any exception → "initializing"), and always returns a
JSON dict `{"status": "healthy", "ollama": <classification>}`, which FastAPI
serialises with HTTP status 200.  Module-level configuration reads
`PORT_HEALTH` (default "8080") and `PORT` (default "80") from the environment
through Python `int()`.

The embedding below models the handler as a function of the outcome of the
upstream HEAD exchange, with a refinement that makes each logging call's
possible failure explicit, plus a small timing model of the bounded request.
-/

/-- Kinds of exception a step of the handler can raise.  `connRefused`,
`timeout` and `reset` are the transport failures named by the spec; `other`
covers every remaining Python exception (the handler's `except Exception`
is a catch-all). -/
inductive ExcKind where
  | connRefused : ExcKind
  | timeout : ExcKind
  | reset : ExcKind
  | other : String → ExcKind
deriving DecidableEq, Repr

/-- The JSON dict the handler returns: `{"status": ..., "ollama": ...}`. -/
structure Body where
  status : String
  ollama : String
deriving DecidableEq, Repr

/-- The HTTP response the transport layer sends for a `GET /ping`: FastAPI
serialises a returned dict with HTTP status 200. -/
structure Response where
  httpStatus : Nat
  body : Body
deriving DecidableEq, Repr

/-- The body of `health_check` (lines 53-66 of `health_server.py`) as a
function of the result of `await client.head(...)`: `Except.ok code` is a
response object whose `status_code` is `code`, `Except.error e` is the head
call raising exception `e`.  The `try`/`except Exception` folds every raised
exception into the `"initializing"` body; FastAPI wraps each returned dict in
an HTTP 200 response. -/
def health_check (headResult : Except ExcKind Nat) : Response :=
  match headResult with
  | Except.ok code =>
      if code = 200 then ⟨200, ⟨"healthy", "reachable"⟩⟩
      else ⟨200, ⟨"healthy", "degraded"⟩⟩
  | Except.error _ => ⟨200, ⟨"healthy", "initializing"⟩⟩

/-- Per-probe behaviour of each logging call (and of the attribute access on
the response object) inside `health_check`: `none` means the step returns
normally, `some e` means it raises `e`.  The Python logging library absorbs
sink failures internally, so in real runs every field is `none`; making the
fields explicit lets us state what the handler's own structure does and does
not guard. -/
structure LogBehavior where
  debugPing : Option ExcKind
  inspectResp : Option ExcKind
  debugReach : Option ExcKind
  warnDegraded : Option ExcKind
  warnInit : Option ExcKind
deriving DecidableEq, Repr

/-- The real behaviour of the Python logging library: log calls do not raise
(sink failures are swallowed by `Handler.handleError`). -/
def benignLogs : LogBehavior :=
  ⟨none, none, none, none, none⟩

/-- The `try` block of `health_check` (lines 53-62): the head call, the read
of `response.status_code`, the branch on it, and the logging call on each
branch.  Returns the dict built by the executed `return`, or the first
exception raised inside the block. -/
def tryBlock (lb : LogBehavior) (head : Except ExcKind Nat) : Except ExcKind Body :=
  match head with
  | Except.error e => Except.error e
  | Except.ok code =>
      match lb.inspectResp with
      | some e => Except.error e
      | none =>
          if code = 200 then
            match lb.debugReach with
            | some e => Except.error e
            | none => Except.ok ⟨"healthy", "reachable"⟩
          else
            match lb.warnDegraded with
            | some e => Except.error e
            | none => Except.ok ⟨"healthy", "degraded"⟩

/-- The whole of `health_check` (lines 44-66) with the failure of every
logging call explicit.  The `logger.debug` on line 51 runs before the `try`;
the `except Exception` block runs `logger.warning` (line 65) before returning
the `"initializing"` dict.  An `Except.error` result is an exception escaping
the handler to the transport layer. -/
def health_check_logged (lb : LogBehavior) (head : Except ExcKind Nat) :
    Except ExcKind Response :=
  match lb.debugPing with
  | some e => Except.error e
  | none =>
      match tryBlock lb head with
      | Except.ok b => Except.ok ⟨200, b⟩
      | Except.error _ =>
          match lb.warnInit with
          | some e => Except.error e
          | none => Except.ok ⟨200, ⟨"healthy", "initializing"⟩⟩

/-- Under the real logging semantics the logged model agrees with the plain
handler and never lets an exception escape. -/
theorem health_check_logged_benign (head : Except ExcKind Nat) :
    health_check_logged benignLogs head = Except.ok (health_check head) := by
  cases head with
  | error e => rfl
  | ok code =>
      by_cases h : code = 200 <;>
        simp [health_check_logged, tryBlock, benignLogs, health_check, h]

/-! Module-level configuration (lines 20-22): `PORT_HEALTH = int(os.getenv("PORT_HEALTH", "8080"))`,
`PORT = int(os.getenv("PORT", "80"))`, `OLLAMA_URL = f"http://localhost:{PORT}"`. -/

/-- The process environment: `os.getenv` maps a variable name to its value,
or to nothing when the variable is unset. -/
def Env : Type := String → Option String

/-- Python `os.getenv(key, default)`. -/
def getenv (env : Env) (key deflt : String) : String :=
  (env key).getD deflt

/-- Whether a character list is a valid digit run for Python `int(..., base 10)`:
nonempty decimal digits, with single underscores allowed only between digits. -/
def digitsOk : List Char → Bool
  | [] => false
  | [c] => c.isDigit
  | c :: '_' :: rest => c.isDigit && digitsOk rest
  | c :: rest => c.isDigit && digitsOk rest

/-- Numeric value of a digit run, skipping the grouping underscores. -/
def digitsVal (cs : List Char) : Nat :=
  cs.foldl (fun a c => if c = '_' then a else a * 10 + (c.toNat - 48)) 0

/-- Leading/trailing whitespace removal, as Python `int` applies to its
string argument before parsing. -/
def pyStrip (cs : List Char) : List Char :=
  ((cs.dropWhile Char.isWhitespace).reverse.dropWhile Char.isWhitespace).reverse

/-- Python `int(s)` on a base-10 string: strip whitespace, allow an optional
sign, then require a valid digit run.  `none` is `int` raising `ValueError`. -/
def pyInt (s : String) : Option Int :=
  match pyStrip s.toList with
  | '+' :: rest => if digitsOk rest then some (digitsVal rest : Int) else none
  | '-' :: rest => if digitsOk rest then some (-(digitsVal rest : Int)) else none
  | rest => if digitsOk rest then some (digitsVal rest : Int) else none

/-- The two process-wide port values, fixed at import time and immutable
thereafter. -/
structure Config where
  PORT_HEALTH : Int
  PORT : Int
deriving DecidableEq, Repr

/-- Module initialisation (lines 20-21), in source order: parse `PORT_HEALTH`
then `PORT` with Python `int()`.  A parse failure is `int` raising
`ValueError`, which aborts the import, so `uvicorn.run` never executes and
the server never starts.  No range check is applied to either value. -/
def initModule (env : Env) : Except String Config :=
  match pyInt (getenv env "PORT_HEALTH" "8080") with
  | none => Except.error "ValueError"
  | some ph =>
      match pyInt (getenv env "PORT" "80") with
      | none => Except.error "ValueError"
      | some p => Except.ok ⟨ph, p⟩

/-- Line 22: `OLLAMA_URL = f"http://localhost:{PORT}"`. -/
def ollamaUrl (cfg : Config) : String :=
  "http://localhost:" ++ toString cfg.PORT

/-- An outbound HTTP request as issued by the httpx client. -/
structure Request where
  method : String
  url : String
  timeout : ℚ
  headers : List (String × String)
deriving DecidableEq, Repr

/-- The upstream check issued on every probe (line 55):
`client.head(f"{OLLAMA_URL}/", timeout=2.0)` — a HEAD request to the root
path, a 2.0-second timeout, and no custom headers. -/
def probeRequest (cfg : Config) : Request :=
  { method := "HEAD"
    url := ollamaUrl cfg ++ "/"
    timeout := 2
    headers := [] }

/-! Timing model of the bounded upstream exchange. -/

/-- The timeout bound on the upstream check: `httpx.Timeout(2.0)` on the
shared client (line 32) and `timeout=2.0` on the head call (line 55). -/
def requestTimeout : ℚ := 2

/-- Modelled from the spec: possible behaviours of the upstream service
during one probe — refuse the connection, accept and respond with a status
code after some delay, or accept and never respond.  The upstream service
itself is outside this repository. -/
inductive UpstreamBehavior where
  | refuse : UpstreamBehavior
  | respond : ℚ → Nat → UpstreamBehavior
  | hang : UpstreamBehavior
deriving DecidableEq, Repr

/-- Modelled from the spec: the httpx client's bounded HEAD exchange (the
client library is outside this repository).  Returns the outcome the handler
observes and the elapsed time: a response arriving within the timeout is
delivered after its delay; a refused connection raises immediately; once the
timeout elapses the exchange is cancelled and raises a timeout exception. -/
def performHead : UpstreamBehavior → Except ExcKind Nat × ℚ
  | UpstreamBehavior.refuse => (Except.error ExcKind.connRefused, 0)
  | UpstreamBehavior.respond d c =>
      if d ≤ requestTimeout then (Except.ok c, d)
      else (Except.error ExcKind.timeout, requestTimeout)
  | UpstreamBehavior.hang => (Except.error ExcKind.timeout, requestTimeout)

/-- An upstream that accepts the connection but produces no response within
the 2.0-second bound: it hangs, or responds only after the timeout. -/
def slowUpstream : UpstreamBehavior → Bool
  | UpstreamBehavior.refuse => false
  | UpstreamBehavior.respond d _ => decide (requestTimeout < d)
  | UpstreamBehavior.hang => true

/-! Per-request statelessness: the only process-wide value the handler
touches is the shared httpx client, acquired at startup (line 32) and closed
at shutdown; the handler mutates nothing. -/

/-- The process-wide state visible to the handler: the shared client's
timeout configuration.  Nothing else persists across requests. -/
structure ServerState where
  clientTimeout : ℚ
deriving DecidableEq, Repr

/-- One `GET /ping` request: the handler computes the response from the
upstream outcome alone and leaves the process state unchanged. -/
def handleProbe (s : ServerState) (head : Except ExcKind Nat) :
    Response × ServerState :=
  (health_check head, s)

/-- A sequence of probes served one after another, threading the process
state. -/
def runProbes : ServerState → List (Except ExcKind Nat) → List Response × ServerState
  | s, [] => ([], s)
  | s, head :: rest =>
      let (r, s1) := handleProbe s head
      let (rs, s2) := runProbes s1 rest
      (r :: rs, s2)

/-- Summary of what the transport layer sends for a handler run: the HTTP
status and the body's `"status"` field when the handler returns, nothing when
an exception escapes. -/
def respSummary (x : Except ExcKind Response) : Option (Nat × String) :=
  (x.toOption).map (fun r => (r.httpStatus, r.body.status))

/-- Concrete environment setting `PORT_HEALTH=0` and `PORT=70000`. -/
def envPorts0And70000 : Env := fun k =>
  if k = "PORT_HEALTH" then some "0" else if k = "PORT" then some "70000" else none

/-- Concrete environment setting `PORT_HEALTH=-5` and leaving `PORT` unset. -/
def envPortHealthNeg : Env := fun k =>
  if k = "PORT_HEALTH" then some "-5" else none

/-- Concrete environment setting `PORT_HEALTH=eighty`, not a decimal
integer literal. -/
def envPortHealthWord : Env := fun k =>
  if k = "PORT_HEALTH" then some "eighty" else none

/-- Every body the `try` block can return has `status = "healthy"`. -/
theorem tryBlock_ok_status (lb : LogBehavior) (head : Except ExcKind Nat)
    (b : Body) (h : tryBlock lb head = Except.ok b) : b.status = "healthy" := by
  unfold tryBlock at h
  repeat' split at h
  all_goals first
    | exact Except.noConfusion h
    | (injection h with h2 ; rw [← h2])

/-- Success of module initialisation is exactly joint parse success of the
two port variables; no condition on the parsed values is involved. -/
theorem initModule_isOk (env : Env) :
    (initModule env).isOk =
      ((pyInt (getenv env "PORT_HEALTH" "8080")).isSome &&
       (pyInt (getenv env "PORT" "80")).isSome) := by
  unfold initModule
  cases pyInt (getenv env "PORT_HEALTH" "8080") with
  | none => rfl
  | some ph => cases pyInt (getenv env "PORT" "80") with
    | none => rfl
    | some p => rfl

/-- The parsed values pass through to the configuration unmodified. -/
theorem initModule_ok_ports (env : Env) (cfg : Config)
    (h : initModule env = Except.ok cfg) :
    pyInt (getenv env "PORT_HEALTH" "8080") = some cfg.PORT_HEALTH ∧
    pyInt (getenv env "PORT" "80") = some cfg.PORT := by
  unfold initModule at h
  cases e1 : pyInt (getenv env "PORT_HEALTH" "8080") <;> rw [e1] at h
  · exact absurd h (by simp)
  · cases e2 : pyInt (getenv env "PORT" "80") <;> rw [e2] at h
    · exact absurd h (by simp)
    · simp at h
      rw [← h]
      exact ⟨rfl, rfl⟩

/-! Claim theorems. -/

/-- C1: for every upstream outcome — response with any status code, or any
exception — `GET /ping` answers with HTTP status 200 and a JSON body whose
`"status"` field is the constant `"healthy"`; the top-level health status
never varies with the upstream result. -/
theorem ping_always_200_healthy (head : Except ExcKind Nat) :
    (health_check head).httpStatus = 200 ∧
    (health_check head).body.status = "healthy" := by
  cases head with
  | error e => exact ⟨rfl, rfl⟩
  | ok code =>
      by_cases h : code = 200 <;> simp [health_check, h]

/-- C2: the body's `"ollama"` field is `"reachable"` exactly when the
upstream HEAD request completed with status code 200; any other code,
including other 2xx codes such as 204, does not map to `"reachable"`. -/
theorem reachable_only_for_status_200 (code : Nat) :
    (code = 200 → (health_check (Except.ok code)).body.ollama = "reachable") ∧
    (code ≠ 200 → (health_check (Except.ok code)).body.ollama ≠ "reachable") := by
  constructor
  · intro h
    simp [health_check, h]
  · intro h
    simp [health_check, h]

/-- C2 witness: status 200 maps to `"reachable"`; status 204 does not. -/
theorem reachable_only_for_status_200_witness :
    (health_check (Except.ok 200)).body.ollama = "reachable" ∧
    (health_check (Except.ok 204)).body.ollama ≠ "reachable" :=
  ⟨(reachable_only_for_status_200 200).1 rfl,
   (reachable_only_for_status_200 204).2 (by decide)⟩

/-- C3: an upstream response completing with any status code other than 200
yields the body `{"status": "healthy", "ollama": "degraded"}`. -/
theorem non_200_status_degraded (code : Nat) (h : code ≠ 200) :
    health_check (Except.ok code) = ⟨200, ⟨"healthy", "degraded"⟩⟩ := by
  simp [health_check, h]

/-- C3 witness: upstream HTTP 503 maps to `"degraded"`. -/
theorem non_200_status_degraded_witness :
    health_check (Except.ok 503) = ⟨200, ⟨"healthy", "degraded"⟩⟩ :=
  non_200_status_degraded 503 (by decide)

/-- C4: every exception raised by the upstream exchange — connection
refused, timeout, reset, or any other — is caught inside the handler and
converted to the `"initializing"` body; under the real logging semantics
nothing escapes to the transport layer. -/
theorem upstream_failure_absorbed (e : ExcKind) :
    health_check_logged benignLogs (Except.error e) =
      Except.ok ⟨200, ⟨"healthy", "initializing"⟩⟩ :=
  rfl

/-- C5: the upstream check is bounded by the 2.0-second timeout — the
elapsed time of the exchange never exceeds `requestTimeout` for any upstream
behaviour — and when the upstream accepts the connection but produces no
response within the bound, the exchange is cancelled at exactly 2.0 seconds
and the handler classifies the probe as `"initializing"`. -/
theorem timeout_hard_cap :
    (∀ b : UpstreamBehavior, (performHead b).2 ≤ requestTimeout) ∧
    (∀ b : UpstreamBehavior, slowUpstream b = true →
      (performHead b).2 = requestTimeout ∧
      health_check (performHead b).1 = ⟨200, ⟨"healthy", "initializing"⟩⟩) := by
  constructor
  · intro b
    cases b with
    | refuse => norm_num [performHead, requestTimeout]
    | respond d c =>
        by_cases h : d ≤ requestTimeout <;> simp [performHead, h]
    | hang => simp [performHead]
  · intro b hb
    cases b with
    | refuse => simp [slowUpstream] at hb
    | respond d c =>
        simp [slowUpstream] at hb
        have h : ¬d ≤ requestTimeout := not_le.mpr hb
        simp [performHead, h, health_check]
    | hang => exact ⟨rfl, rfl⟩

/-- C5 witness: an upstream that accepts and never responds is cut off at
the 2.0-second bound and reported as `"initializing"`. -/
theorem timeout_hard_cap_witness :
    (performHead UpstreamBehavior.hang).2 = requestTimeout ∧
    health_check (performHead UpstreamBehavior.hang).1 =
      ⟨200, ⟨"healthy", "initializing"⟩⟩ :=
  timeout_hard_cap.2 UpstreamBehavior.hang rfl

/-- C6: on every probe the upstream check is a HEAD request to the root
path of `http://localhost:<PORT>/` with timeout 2.0 and no custom headers;
the configuration is read once at startup, with `PORT` defaulting to 80 and
`PORT_HEALTH` defaulting to 8080 when unset. -/
theorem probe_request_shape_and_defaults :
    (∀ cfg : Config,
      (probeRequest cfg).method = "HEAD" ∧
      (probeRequest cfg).url = "http://localhost:" ++ toString cfg.PORT ++ "/" ∧
      (probeRequest cfg).timeout = 2 ∧
      (probeRequest cfg).headers = []) ∧
    (∀ (env : Env) (cfg : Config), initModule env = Except.ok cfg →
      (env "PORT" = none → cfg.PORT = 80) ∧
      (env "PORT_HEALTH" = none → cfg.PORT_HEALTH = 8080)) := by
  constructor
  · intro cfg
    exact ⟨rfl, rfl, rfl, rfl⟩
  · intro env cfg h
    have hports := initModule_ok_ports env cfg h
    constructor
    · intro hp
      have hg : getenv env "PORT" "80" = "80" := by simp [getenv, hp]
      have h80 : pyInt "80" = some 80 := rfl
      have := hports.2
      rw [hg, h80] at this
      exact (Option.some.injEq _ _ ▸ this).symm
    · intro hp
      have hg : getenv env "PORT_HEALTH" "8080" = "8080" := by simp [getenv, hp]
      have h8080 : pyInt "8080" = some 8080 := rfl
      have := hports.1
      rw [hg, h8080] at this
      exact (Option.some.injEq _ _ ▸ this).symm

/-- C6 witness: with both variables unset, startup yields the default
configuration `PORT_HEALTH = 8080`, `PORT = 80`. -/
theorem probe_request_shape_and_defaults_witness :
    (Config.mk 8080 80).PORT = 80 ∧ (Config.mk 8080 80).PORT_HEALTH = 8080 :=
  have h := probe_request_shape_and_defaults.2 (fun _ => none) (Config.mk 8080 80) rfl
  ⟨h.1 rfl, h.2 rfl⟩

/-- C7: the handler is deterministic in the upstream outcome and carries no
state across requests: any number of probes under the same upstream outcome
produce the same response each time and leave the process state unchanged. -/
theorem probes_idempotent (s : ServerState) (head : Except ExcKind Nat) (n : Nat) :
    runProbes s (List.replicate n head) =
      (List.replicate n (health_check head), s) := by
  induction n with
  | zero => rfl
  | succ n ih => simp [List.replicate, runProbes, handleProbe, ih]

/-- C8 counterexample: the `logger.debug` call on line 51 runs before the
`try` block, so if that log call raised, the exception would escape the
handler instead of producing the 200 `"healthy"` response. -/
theorem log_call_failure_escapes_cex :
    health_check_logged ⟨some (ExcKind.other "OSError"), none, none, none, none⟩
      (Except.ok 200) = Except.error (ExcKind.other "OSError") :=
  rfl

/-- C8 amended: a log call raising inside the `try` block is caught and the
handler still returns the 200 `"healthy"` response; only the debug call
before the `try` (line 51) and the warning inside the `except` handler
(line 65) are unguarded — in real runs the Python logging library absorbs
sink failures internally, so neither call raises. -/
theorem guarded_log_failures_absorbed (lb : LogBehavior)
    (head : Except ExcKind Nat)
    (h1 : lb.debugPing = none) (h2 : lb.warnInit = none) :
    respSummary (health_check_logged lb head) = some (200, "healthy") := by
  unfold health_check_logged
  rw [h1]
  cases e : tryBlock lb head with
  | ok b =>
      have hs := tryBlock_ok_status lb head b e
      simp [respSummary, Except.toOption, hs]
  | error ex =>
      rw [h2]
      rfl

/-- C8 amended witness: with the warning call inside the `try` block
raising (upstream degraded), the handler still answers 200 `"healthy"`. -/
theorem guarded_log_failures_absorbed_witness :
    respSummary (health_check_logged
      ⟨none, none, none, some (ExcKind.other "sink failure"), none⟩
      (Except.ok 503)) = some (200, "healthy") :=
  guarded_log_failures_absorbed
    ⟨none, none, none, some (ExcKind.other "sink failure"), none⟩
    (Except.ok 503) rfl rfl

/-- C9: the `except Exception` clause is a universal catch-all — whenever
anything inside the `try` block raises, transport failure or not (for
example a fault while inspecting the response object), the handler returns
`{"status": "healthy", "ollama": "initializing"}`. -/
theorem try_block_catch_all (lb : LogBehavior) (head : Except ExcKind Nat)
    (h1 : lb.debugPing = none) (h2 : lb.warnInit = none)
    (h3 : (tryBlock lb head).isOk = false) :
    health_check_logged lb head =
      Except.ok ⟨200, ⟨"healthy", "initializing"⟩⟩ := by
  unfold health_check_logged
  rw [h1]
  cases e : tryBlock lb head with
  | ok b =>
      rw [e] at h3
      simp [Except.isOk, Except.toBool] at h3
  | error ex =>
      rw [h2]

/-- C9 witness: a programming fault while inspecting the response object
(head succeeded with status 200) still yields the `"initializing"` body. -/
theorem try_block_catch_all_witness :
    health_check_logged
      ⟨none, some (ExcKind.other "AttributeError"), none, none, none⟩
      (Except.ok 200) = Except.ok ⟨200, ⟨"healthy", "initializing"⟩⟩ :=
  try_block_catch_all
    ⟨none, some (ExcKind.other "AttributeError"), none, none, none⟩
    (Except.ok 200) rfl rfl rfl

/-- C10: module initialisation fails with `ValueError` exactly when a set
port variable is not a valid integer literal, and otherwise passes the
parsed values through with no range check: 0, negative values and values
above 65535 are all accepted. -/
theorem ports_parsed_never_range_checked :
    (∀ env : Env, (initModule env).isOk =
      ((pyInt (getenv env "PORT_HEALTH" "8080")).isSome &&
       (pyInt (getenv env "PORT" "80")).isSome)) ∧
    (∀ (env : Env) (cfg : Config), initModule env = Except.ok cfg →
      pyInt (getenv env "PORT_HEALTH" "8080") = some cfg.PORT_HEALTH ∧
      pyInt (getenv env "PORT" "80") = some cfg.PORT) ∧
    initModule envPorts0And70000 = Except.ok ⟨0, 70000⟩ ∧
    initModule envPortHealthNeg = Except.ok ⟨-5, 80⟩ ∧
    initModule envPortHealthWord = Except.error "ValueError" :=
  ⟨initModule_isOk, initModule_ok_ports, rfl, rfl, rfl⟩

/-- C10 witness: the out-of-range-looking values 0 and 70000 parse and are
accepted unchanged. -/
theorem ports_parsed_never_range_checked_witness :
    pyInt (getenv envPorts0And70000 "PORT_HEALTH" "8080") = some (0 : Int) ∧
    pyInt (getenv envPorts0And70000 "PORT" "80") = some (70000 : Int) :=
  ports_parsed_never_range_checked.2.1 envPorts0And70000 (Config.mk 0 70000) rfl
